import Mathlib

/-!
Verification development for `src/Python/server.py` of the unity-mcp
repository.  The file shallowly embeds the module-level initialization
sequence of `server.py`, the `server_lifespan` async context manager, and
the `asset_creation_strategy` prompt, and proves theorems about the
connection lifecycle, teardown behaviour, tool registration and the prompt
text.
-/

namespace UnityMCP

/-- A `UnityConnection` object (class defined in `unity_connection.py`, which
is not part of the files under verification) is modelled abstractly by a
numeric identity: the properties below only concern whether a connection
object exists and which object `disconnect` is invoked on.  A live Python
object with no `__bool__`/`__len__` override is truthy, so the check
`if _unity_connection:` in `server.py` is modelled as the option holding a
value. -/
abbrev Conn := Nat

/-- Observable actions performed by `server.py` during one execution of
`server_lifespan`, listed in program order in the trace of a run:
the single call to `get_unity_connection()`, the log messages, the `yield`
of the context dictionary (recording the bridge value), and any
`disconnect()` call on a connection object. -/
inductive Event where
  | getConn : Event
  | logInfo : String → Event
  | logWarning : String → Event
  | yieldBridge : Option Conn → Event
  | disconnect : Conn → Event
deriving DecidableEq, Repr

/-- The outcome of one complete execution of `server_lifespan`:
`events` is the trace of observable actions, `yielded` the context
dictionary passed to the body at the `yield` (the literal `{...}` with the
single key `bridge`), `finalConn` the value of the global
`_unity_connection` after the `finally` block has run, and `raised` the
exception, if any, that propagates out of the context manager. -/
structure LifespanRun where
  events : List Event
  yielded : List (String × Option Conn)
  finalConn : Option Conn
  raised : Option String
deriving DecidableEq, Repr

/-- Embedding of the startup `try` block of `server_lifespan`
(`server.py` lines 25-30): `get_unity_connection()` is called once; on
success the global `_unity_connection` holds the returned connection and an
info message is logged; on any exception a warning carrying the exception
message is logged and `_unity_connection` is set to `None`.  The behaviour
of `get_unity_connection` itself (return a connection, or raise) lives in
`unity_connection.py` and is therefore an input `connect` of the model. -/
def startup (connect : Except String Conn) : List Event × Option Conn :=
  match connect with
  | .ok c =>
      ([Event.getConn, Event.logInfo "Connected to Unity on startup"], some c)
  | .error e =>
      ([Event.getConn,
        Event.logWarning ("Could not connect to Unity on startup: " ++ e)],
       none)

/-- Embedding of `server_lifespan` (`server.py` lines 20-39).  `connect` is
the outcome of the call to `get_unity_connection()`; `bodyError` is the
exception, if any, raised by the code running while the context manager is
suspended at the `yield`.  The startup block runs first, then the context
dictionary `{"bridge": _unity_connection}` is yielded; the `finally` block
runs on both the normal and the exceptional exit path, calling
`disconnect()` and resetting the global to `None` exactly when the global
holds a connection, and finally logging shutdown.  A body exception then
propagates out; a startup connection failure does not. -/
def server_lifespan (connect : Except String Conn) (bodyError : Option String) :
    LifespanRun :=
  let s := startup connect
  let fin : List Event × Option Conn :=
    match s.2 with
    | some c => ([Event.disconnect c], none)
    | none => ([], none)
  { events :=
      Event.logInfo "UnityMCP server starting up" ::
        s.1 ++ Event.yieldBridge s.2 :: fin.1 ++
          [Event.logInfo "UnityMCP server shut down"],
    yielded := [("bridge", s.2)],
    finalConn := fin.2,
    raised := bodyError }

/-- Recognizer for the `get_unity_connection()` call event. -/
def isGetConn : Event → Bool
  | Event.getConn => true
  | _ => false

/-- Recognizer for a `disconnect()` call event. -/
def isDisconnect : Event → Bool
  | Event.disconnect _ => true
  | _ => false

/-- Recognizer for the `yield` event. -/
def isYield : Event → Bool
  | Event.yieldBridge _ => true
  | _ => false

/-- The module-level initialization steps of `server.py`: configuring
logging, constructing the `FastMCP` instance, calling
`register_all_tools(mcp)`, and registering the `asset_creation_strategy`
prompt via the `@mcp.prompt()` decorator. -/
inductive InitStep where
  | configureLogging : InitStep
  | createFastMCP : String → InitStep
  | registerAllTools : InitStep
  | registerPrompt : String → InitStep
deriving DecidableEq, Repr

/-- Embedding of the top level of `server.py` (module import time, lines
11-66).  The parameter `connect` is the hypothetical outcome of connecting
to the editor; the module level never consults it — `get_unity_connection`
is only called later, inside `server_lifespan` — which is exactly what the
independence theorem below states. -/
def moduleInit (connect : Except String Conn) : List InitStep :=
  [InitStep.configureLogging,
   InitStep.createFastMCP "UnityMCP",
   InitStep.registerAllTools,
   InitStep.registerPrompt "asset_creation_strategy"]

/-- Recognizer for the `register_all_tools` initialization step. -/
def isRegisterAllTools : InitStep → Bool
  | InitStep.registerAllTools => true
  | _ => false

/-- Whether the first list of characters is a prefix of the second. -/
def beginsWith : List Char → List Char → Bool
  | [], _ => true
  | _ :: _, [] => false
  | p :: ps, c :: cs => p == c && beginsWith ps cs

/-- Whether the pattern occurs as a contiguous subsequence of the list. -/
def occursIn (pat : List Char) : List Char → Bool
  | [] => beginsWith pat []
  | c :: cs => beginsWith pat (c :: cs) || occursIn pat cs

/-- Embedding of the `asset_creation_strategy` prompt (`server.py` lines
53-66).  In the Python source the function takes no argument and reads no
state; to state that its result is independent of the server state it is
modelled as a function of the current connection status that ignores it.
Each `\x5c\x5cn` in the Python literal denotes the two characters backslash
and `n`, exactly as the Lean escape below does; `\x27` and `\x60` denote
the apostrophe and backtick characters of the source text. -/
def asset_creation_strategy (state : Option Conn) : String :=
  "Available Unity MCP Server Tools:\\n\\n"
    ++ "For detailed usage, please refer to the specific tool\x27s documentation.\\n\\n"
    ++ "- \x60manage_editor\x60: Controls editor state (play/pause/stop) and queries info (state, selection).\\n"
    ++ "- \x60execute_menu_item\x60: Executes Unity Editor menu items by path (e.g., \x27File/Save Project\x27).\\n"
    ++ "- \x60read_console\x60: Reads or clears Unity console messages, with filtering options.\\n"
    ++ "- \x60manage_scene\x60: Manages scenes (load, save, create, get hierarchy).\\n"
    ++ "- \x60manage_gameobject\x60: Manages GameObjects in the scene (CRUD, find, components, assign properties).\\n"
    ++ "- \x60manage_script\x60: Manages C# script files (CRUD).\\n"
    ++ "- \x60manage_asset\x60: Manages project assets (import, create, modify, delete, search).\\n\\n"

/-- C1 (counterexample): at the concrete startup outcome where
`get_unity_connection` raises "connection unavailable", `server_lifespan`
does not propagate the exception: no exception leaves the context manager
(`raised = none`); instead the error is demoted to a logged warning and the
lifespan still yields a context dictionary.  This refutes the claim that
the connection error is surfaced verbatim to the caller of the server. -/
theorem lifespan_swallows_connect_error_cex :
    (server_lifespan (.error "connection unavailable") none).raised = none ∧
    Event.logWarning
        "Could not connect to Unity on startup: connection unavailable" ∈
      (server_lifespan (.error "connection unavailable") none).events ∧
    (server_lifespan (.error "connection unavailable") none).yielded =
      [("bridge", none)] := by
  refine ⟨rfl, ?_, rfl⟩
  decide

/-- C1 (amended): when `get_unity_connection` raises at startup,
`server_lifespan` suppresses the exception rather than propagating it: it
logs a warning that carries the error message verbatim, sets the global
`_unity_connection` to `None`, yields the context dictionary
`{"bridge": None}`, and the only exception that can propagate out of the
context manager is one raised later by the body. -/
theorem lifespan_connect_error_handling (e : String) (bodyError : Option String) :
    (server_lifespan (.error e) bodyError).raised = bodyError ∧
    Event.logWarning ("Could not connect to Unity on startup: " ++ e) ∈
      (server_lifespan (.error e) bodyError).events ∧
    (server_lifespan (.error e) bodyError).yielded = [("bridge", none)] ∧
    (server_lifespan (.error e) bodyError).finalConn = none := by
  refine ⟨rfl, ?_, rfl, rfl⟩
  simp [server_lifespan, startup]

/-- C2: in every execution of `server_lifespan` — whatever the outcome of
the connection attempt and however the body exits — `get_unity_connection`
is invoked exactly once, and that single invocation happens before the
lifespan yields: the trace up to (and excluding) the `yield` already
contains the one call, and no call occurs afterwards. -/
theorem lifespan_single_connection_attempt
    (connect : Except String Conn) (bodyError : Option String) :
    ((server_lifespan connect bodyError).events.countP isGetConn) = 1 ∧
    (((server_lifespan connect bodyError).events.takeWhile
        (fun e => !(isYield e))).countP isGetConn) = 1 := by
  cases connect <;> exact ⟨rfl, rfl⟩

/-- C3: whenever the startup connection attempt succeeds with connection
`c`, every exit of `server_lifespan` — normal (`bodyError = none`) or
exceptional — calls `disconnect` exactly once, on that very connection `c`,
and leaves the global `_unity_connection` reset to `None`. -/
theorem lifespan_teardown_on_every_exit (c : Conn) (bodyError : Option String) :
    ((server_lifespan (.ok c) bodyError).events.countP isDisconnect) = 1 ∧
    Event.disconnect c ∈ (server_lifespan (.ok c) bodyError).events ∧
    (server_lifespan (.ok c) bodyError).finalConn = none := by
  refine ⟨rfl, ?_, rfl⟩
  simp [server_lifespan, startup]

/-- C4: when the startup call to `get_unity_connection` fails, no retry
ever happens: the connection attempt count over the whole trace is one, the
context dictionary yielded to the body carries `None`, the global is still
`None` after the `finally` block, and no `disconnect` is ever called. -/
theorem lifespan_no_retry (e : String) (bodyError : Option String) :
    ((server_lifespan (.error e) bodyError).events.countP isGetConn) = 1 ∧
    (server_lifespan (.error e) bodyError).yielded = [("bridge", none)] ∧
    (server_lifespan (.error e) bodyError).finalConn = none ∧
    ((server_lifespan (.error e) bodyError).events.countP isDisconnect) = 0 :=
  ⟨rfl, rfl, rfl, rfl⟩

/-- C5: the module-initialization sequence of `server.py` is the same
whatever the outcome of any editor-connection attempt would be, and it
performs the `register_all_tools` step exactly once — so every run of the
server exposes the same tool set, independently of the connection. -/
theorem module_registers_tools_once :
    (∀ c₁ c₂ : Except String Conn, moduleInit c₁ = moduleInit c₂) ∧
    (∀ c : Except String Conn,
      ((moduleInit c).countP isRegisterAllTools) = 1) :=
  ⟨fun _ _ => rfl, fun _ => rfl⟩

/-- C6: if the startup connection fails, `server_lifespan` does not abort
the server: no exception propagates out on the normal path, and the body is
still entered with the context dictionary `{"bridge": None}`. -/
theorem lifespan_yields_none_bridge_on_failure (e : String) :
    (server_lifespan (.error e) none).raised = none ∧
    (server_lifespan (.error e) none).yielded = [("bridge", none)] ∧
    Event.yieldBridge none ∈ (server_lifespan (.error e) none).events := by
  refine ⟨rfl, rfl, ?_⟩
  simp [server_lifespan, startup]

/-- C7: `disconnect` is never invoked on an absent connection: if the trace
of an execution of `server_lifespan` contains a `disconnect` on some
connection `c`, then the global `_unity_connection` actually held that
connection (the startup attempt returned `c`, and `c` is the bridge value
that was yielded), so the teardown branch cannot dereference `None`. -/
theorem disconnect_only_when_connected (connect : Except String Conn)
    (bodyError : Option String) (c : Conn)
    (h : Event.disconnect c ∈ (server_lifespan connect bodyError).events) :
    connect = .ok c ∧
    (server_lifespan connect bodyError).yielded = [("bridge", some c)] := by
  cases connect with
  | ok c0 =>
      simp [server_lifespan, startup] at h
      subst h
      exact ⟨rfl, rfl⟩
  | error e =>
      exact absurd h (by simp [server_lifespan, startup])

/-- Witness for `disconnect_only_when_connected` at the concrete run where
the startup attempt returns connection `0` and the body exits normally. -/
theorem disconnect_only_when_connected_witness :
    (Event.disconnect 0 ∈ (server_lifespan (.ok 0) none).events) ∧
    ((.ok 0 : Except String Conn) = .ok 0 ∧
      (server_lifespan (.ok 0) none).yielded = [("bridge", some 0)]) :=
  ⟨by decide, disconnect_only_when_connected (.ok 0) none 0 (by decide)⟩

set_option maxRecDepth 20000 in
/-- C8: `asset_creation_strategy` is a deterministic constant: it returns
the identical string in any server state, that string contains the literal
two-character sequence backslash–`n` (character codes 92 and 110, from the
`\x5c\x5cn` escapes of the Python source), and it contains no newline
character (code 10). -/
theorem asset_creation_strategy_constant :
    (∀ s₁ s₂ : Option Conn,
      asset_creation_strategy s₁ = asset_creation_strategy s₂) ∧
    occursIn [Char.ofNat 92, Char.ofNat 110]
      (asset_creation_strategy none).data = true ∧
    ((asset_creation_strategy none).data.all
      (fun ch => !(ch == Char.ofNat 10))) = true := by
  refine ⟨fun _ _ => rfl, ?_, ?_⟩ <;> decide

end UnityMCP
